import Mathlib

/-!
Verification of the `monitor` repository: a Linux host-metrics sampler.

The development shallowly embeds the Rust sources:

* `src/stat/mod.rs` — CPU counter parsing (`Stat::read_proc_stat`), the
  two-sample CPU usage estimator (`Stat::calculate_cpu_usage`), snapshot
  assembly (`Stat::get_system_info`) and home-directory resolution
  (`Stat::get_user_home_dir`);
* `src/prepare.rs` — the HTTP-style response envelope;
* `src/monitor/mod.rs` — the OS/disk data model (the `sysinfo`-backed
  lookups themselves are external collaborators and enter as parameters);
* `src/main.rs` — one iteration of the sampling loop.

Modelling conventions:

* Rust `u64` values are `Nat`s; `u64` addition and subtraction are modelled
  with wraparound modulo `2^64` (`wadd`, `wsub`), the release-profile
  semantics of integer overflow in Rust.  The counter fields produced by
  parsing are genuine `u64` values (`< 2^64`).
* Rust `f64` arithmetic in the estimator is modelled over `ℚ`.  The source
  computes `(usage as f64 / total as f64) * 100.0`, renders it with
  `format!("{:.2}")` and re-parses; `round2` models that pipeline as exact
  rational division followed by rounding at two decimal digits with ties to
  even, which is how Rust's float formatting rounds the exact decimal
  expansion.
* Rust strings are `List Char`; text helpers (`rustLines`, `splitChar`,
  `splitWhitespaceL`, `trimList`, `parseU64`) mirror `str::lines`,
  `str::split`, `str::split_whitespace`, `str::trim` and `u64::from_str`.
* A `.unwrap()` or out-of-bounds index on malformed data is a panic; the
  counter reader's outcome type therefore distinguishes a successful parse
  from a panic.  The reader's Rust error channel (`io::Error`) can only
  carry file-system errors, which sit outside the embedding (the file text
  is a parameter).
-/

/-- `2^64`, the wraparound modulus of Rust `u64` arithmetic. -/
def U64 : ℕ := 18446744073709551616

/-- Wrapping `u64` addition (release-profile Rust semantics of `+`). -/
def wadd (a b : ℕ) : ℕ := (a + b) % U64

/-- Wrapping `u64` subtraction (release-profile Rust semantics of `-`). -/
def wsub (a b : ℕ) : ℕ := (a + U64 - b % U64) % U64

theorem U64_pos : 0 < U64 := by decide

theorem wsub_exact {a b : ℕ} (hba : b ≤ a) (ha : a < U64) : wsub a b = a - b := by
  simp only [wsub, U64] at *
  omega

theorem wsub_self (a : ℕ) : wsub a a = 0 := by
  simp only [wsub, U64]
  omega

theorem wadd_lt (a b : ℕ) : wadd a b < U64 := Nat.mod_lt _ U64_pos

/-- Rounding of a nonnegative rational to the nearest integer with ties to
even: the rounding Rust's float formatting applies to the exact decimal
expansion of the value being printed. -/
def roundHalfEvenInt (q : ℚ) : ℤ :=
  let n : ℤ := ⌊q⌋
  let f : ℚ := q - (n : ℚ)
  if f < 1/2 then n
  else if 1/2 < f then n + 1
  else if n % 2 = 0 then n else n + 1

/-- Model of `format!("{:.2}", x).parse::<f64>()`: round once, at the final
percentage, to exactly two decimal digits. -/
def round2 (q : ℚ) : ℚ := ((roundHalfEvenInt (q * 100) : ℤ) : ℚ) / 100

theorem roundHalfEvenInt_eq_of_lt_half {n : ℤ} {q : ℚ} (h1 : (n : ℚ) ≤ q)
    (h2 : q < (n : ℚ) + 1/2) : roundHalfEvenInt q = n := by
  have hfl : ⌊q⌋ = n := Int.floor_eq_iff.mpr ⟨h1, by linarith⟩
  simp only [roundHalfEvenInt, hfl]
  rw [if_pos (by linarith)]

theorem roundHalfEvenInt_eq_of_gt_half {n : ℤ} {q : ℚ} (h1 : (n : ℚ) + 1/2 < q)
    (h2 : q < (n : ℚ) + 1) : roundHalfEvenInt q = n + 1 := by
  have hfl : ⌊q⌋ = n := Int.floor_eq_iff.mpr ⟨by linarith, by linarith⟩
  simp only [roundHalfEvenInt, hfl]
  rw [if_neg (by linarith), if_pos (by linarith)]

theorem roundHalfEvenInt_nonneg {q : ℚ} (h : 0 ≤ q) : 0 ≤ roundHalfEvenInt q := by
  have hfl : (0 : ℤ) ≤ ⌊q⌋ := Int.floor_nonneg.mpr h
  simp only [roundHalfEvenInt]
  split_ifs <;> omega

theorem roundHalfEvenInt_le {q : ℚ} {m : ℤ} (h : q ≤ (m : ℚ)) :
    roundHalfEvenInt q ≤ m := by
  have hnm : ⌊q⌋ ≤ m := by
    have := Int.floor_mono h
    rwa [Int.floor_intCast] at this
  have hn : (⌊q⌋ : ℚ) ≤ q := Int.floor_le q
  simp only [roundHalfEvenInt]
  split_ifs with h1 h2 h3
  · exact hnm
  · -- the fractional part exceeds one half, so `q` is strictly above `⌊q⌋`
    have hlt : (⌊q⌋ : ℚ) < (m : ℚ) := by linarith
    have : ⌊q⌋ < m := by exact_mod_cast hlt
    omega
  · exact hnm
  · have hlt : (⌊q⌋ : ℚ) < (m : ℚ) := by linarith
    have : ⌊q⌋ < m := by exact_mod_cast hlt
    omega

theorem round2_nonneg {q : ℚ} (h : 0 ≤ q) : 0 ≤ round2 q := by
  have := roundHalfEvenInt_nonneg (q := q * 100) (by positivity)
  unfold round2
  positivity

theorem round2_le_100 {q : ℚ} (h : q ≤ 100) : round2 q ≤ 100 := by
  have h1 : q * 100 ≤ ((10000 : ℤ) : ℚ) := by push_cast; linarith
  have h2 : roundHalfEvenInt (q * 100) ≤ 10000 := roundHalfEvenInt_le h1
  have h3 : ((roundHalfEvenInt (q * 100) : ℤ) : ℚ) ≤ 10000 := by exact_mod_cast h2
  unfold round2
  linarith

/-- The ten cumulative CPU time counters parsed from the aggregate `cpu `
line of `/proc/stat` (struct `CpuUsageInfo` in `src/stat/mod.rs`). -/
structure CpuUsageInfo where
  user : ℕ
  nice : ℕ
  system : ℕ
  idle : ℕ
  io_wait : ℕ
  irq : ℕ
  soft_irq : ℕ
  steal_stolen : ℕ
  guest : ℕ
  guest_nice : ℕ
deriving DecidableEq, Repr

/-- `CpuUsageInfo::get_total_time`: the sum of all ten counters, taken with
the wrapping `u64` addition the compiled code performs. -/
def CpuUsageInfo.get_total_time (info : CpuUsageInfo) : ℕ :=
  wadd (wadd (wadd (wadd (wadd (wadd (wadd (wadd (wadd info.user info.nice)
    info.system) info.idle) info.io_wait) info.irq) info.soft_irq)
    info.steal_stolen) info.guest) info.guest_nice

/-- Mathematical (unwrapped) sum of the ten counters, for stating bounds. -/
def sumFields (info : CpuUsageInfo) : ℕ :=
  info.user + info.nice + info.system + info.idle + info.io_wait + info.irq
    + info.soft_irq + info.steal_stolen + info.guest + info.guest_nice

theorem get_total_time_eq (info : CpuUsageInfo) :
    info.get_total_time = sumFields info % U64 := by
  simp only [CpuUsageInfo.get_total_time, sumFields, wadd, Nat.mod_add_mod]

theorem idle_le_sumFields (info : CpuUsageInfo) : info.idle ≤ sumFields info := by
  simp only [sumFields]
  omega

/-- `Stat::calculate_cpu_usage` from `src/stat/mod.rs`: the two-sample CPU
utilization estimator.  `u64` subtraction is wrapping (`wsub`); the `f64`
percentage and its `format!("{:.2}")` re-parse are modelled by exact
rational arithmetic and `round2`. -/
def Stat.calculate_cpu_usage (current prev : CpuUsageInfo) : ℚ :=
  let current_total_time := current.get_total_time
  let prev_total_time := prev.get_total_time
  let left_time := wsub current.idle prev.idle
  let usage_time := wsub (wsub current_total_time prev_total_time) left_time
  let usage_total_time := wsub current_total_time prev_total_time
  if 0 < usage_time ∧ 0 < usage_total_time then
    round2 ((usage_time : ℚ) / (usage_total_time : ℚ) * 100)
  else 0

/-- Splits a character list at every occurrence of characters satisfying `p`
(the separators are dropped, empty segments are kept): the semantics of
Rust's `str::split` with a char pattern. -/
def splitPred (p : Char → Bool) (s : List Char) : List (List Char) :=
  s.foldr
    (fun c acc =>
      if p c then [] :: acc
      else
        match acc with
        | [] => [[c]]
        | t :: ts => (c :: t) :: ts)
    [[]]

/-- Rust `str::split(sep)` for a single separator character. -/
def splitChar (sep : Char) (s : List Char) : List (List Char) :=
  splitPred (fun c => c = sep) s

/-- Rust `str::split_whitespace`: split on whitespace, dropping empty
segments. -/
def splitWhitespaceL (s : List Char) : List (List Char) :=
  (splitPred Char.isWhitespace s).filter (fun t => t ≠ [])

/-- Strips one trailing carriage return, as `str::lines` does per line. -/
def stripCR (l : List Char) : List Char :=
  if l.getLast? = some '\r' then l.dropLast else l

/-- Rust `str::lines`: split at `'\n'`, drop the final empty segment coming
from a trailing newline, strip one trailing `'\r'` per line. -/
def rustLines (s : List Char) : List (List Char) :=
  let parts := splitChar '\n' s
  let parts := if parts.getLast? = some [] then parts.dropLast else parts
  parts.map stripCR

/-- Rust `str::starts_with(pat)` for string patterns. -/
def listStartsWith (s pat : List Char) : Bool :=
  match pat, s with
  | [], _ => true
  | _ :: _, [] => false
  | p :: ps, c :: cs => p = c && listStartsWith cs ps

/-- Rust `str::trim`: drop leading and trailing whitespace. -/
def trimList (s : List Char) : List Char :=
  ((s.dropWhile Char.isWhitespace).reverse.dropWhile Char.isWhitespace).reverse

/-- Rust `u64::from_str` (`str::parse::<u64>()`): an optional leading `'+'`,
then one or more decimal digits, and the value must fit in a `u64`. -/
def parseU64 (s : List Char) : Option ℕ :=
  let s2 := match s with
    | '+' :: rest => rest
    | _ => s
  if s2 = [] then none
  else if s2.all Char.isDigit then
    let n := s2.foldl (fun acc c => acc * 10 + (c.toNat - 48)) 0
    if n < U64 then some n else none
  else none

/-- Outcome of one invocation of `Stat::read_proc_stat` on given file text.
`panic` models the process-aborting `unwrap`/index panics the source hits on
malformed text; the function's Rust error channel (`io::Error`) can only
report file-system failures, which are outside the embedding, and carries no
parse-error variant. -/
inductive ReadOutcome where
  | ok (info : CpuUsageInfo)
  | panic
deriving DecidableEq, Repr

/-- `Stat::read_proc_stat` from `src/stat/mod.rs`, applied to the text of
`/proc/stat`: find the first line starting with `"cpu "`, split it on
whitespace, and parse fields 1..10 positionally as `u64` counters.  A
missing aggregate line (`unwrap` on `find`), a missing field (out-of-bounds
index) or an unparsable field (`unwrap` on `parse`) panics. -/
def Stat.read_proc_stat (contents : List Char) : ReadOutcome :=
  let lines := rustLines contents
  match lines.find? (fun line => listStartsWith line ("cpu ".data)) with
  | none => ReadOutcome.panic
  | some cpu_line =>
    let fields := splitWhitespaceL cpu_line
    match (do
      let user ← (fields.get? 1).bind parseU64
      let nice ← (fields.get? 2).bind parseU64
      let system ← (fields.get? 3).bind parseU64
      let idle ← (fields.get? 4).bind parseU64
      let io_wait ← (fields.get? 5).bind parseU64
      let irq ← (fields.get? 6).bind parseU64
      let soft_irq ← (fields.get? 7).bind parseU64
      let steal_stolen ← (fields.get? 8).bind parseU64
      let guest ← (fields.get? 9).bind parseU64
      let guest_nice ← (fields.get? 10).bind parseU64
      pure (CpuUsageInfo.mk user nice system idle io_wait irq soft_irq
        steal_stolen guest guest_nice) : Option CpuUsageInfo) with
    | some info => ReadOutcome.ok info
    | none => ReadOutcome.panic


/-- OS identity block (struct `Os` in `src/monitor/mod.rs`), produced by the
`sysinfo` collaborator. -/
structure Os where
  os_type : String
  kernel_version : String
  os_version : String
  host_name : String
  cpu_num : ℕ
  total_memory : ℕ
  used_memory : ℕ
  total_swap : ℕ
  used_swap : ℕ
deriving DecidableEq, Repr

/-- One disk descriptor (struct `OsDisk` in `src/monitor/mod.rs`). -/
structure OsDisk where
  type_ : String
  name : String
  total_space : ℕ
  available_space : ℕ
  mount_point : String
  is_removable : Bool
deriving DecidableEq, Repr

/-- CPU core-count block (struct `CpuInfo` in `src/stat/mod.rs`); `usage`
is the `f64` percentage, modelled in `ℚ`. -/
structure CpuInfo where
  physics_core_num : ℕ
  virtual_core_num : ℕ
  usage : ℚ
deriving DecidableEq, Repr

/-- Memory block (struct `MemInfo` in `src/stat/mod.rs`). -/
structure MemInfo where
  mem_total : ℕ
  mem_available : ℕ
deriving DecidableEq, Repr

/-- The assembled snapshot (struct `SystemInfo` in `src/stat/mod.rs`). -/
structure SystemInfo where
  os : Os
  disk_list : List OsDisk
  cpu_info : CpuInfo
  mem_info : MemInfo
  home_dir : String
deriving DecidableEq, Repr

/-- `SystemInfo::default()`: every field zero / empty, as produced by the
derived `Default` instances in the source. -/
def SystemInfo.default : SystemInfo :=
  { os := { os_type := "", kernel_version := "", os_version := "",
            host_name := "", cpu_num := 0, total_memory := 0,
            used_memory := 0, total_swap := 0, used_swap := 0 }
  , disk_list := []
  , cpu_info := { physics_core_num := 0, virtual_core_num := 0, usage := 0 }
  , mem_info := { mem_total := 0, mem_available := 0 }
  , home_dir := "" }

/-- `serde_json::Value` as it is actually used by this program: either a
plain string (the empty-body placeholder of `prepare.rs`) or the
serialization of a `SystemInfo`.  `serde_json::to_value` on these plain
structs is a faithful injection, so the serialized snapshot is modelled by
the snapshot itself. -/
inductive Value where
  | str (s : String)
  | obj (info : SystemInfo)
deriving DecidableEq, Repr

/-- `HttpResponse` from `src/prepare.rs`. -/
structure HttpResponse where
  code : ℕ
  body : Value
  error : String
deriving DecidableEq, Repr

/-- `get_success_response` from `src/prepare.rs`. -/
def get_success_response (body : Option Value) : HttpResponse :=
  { code := 200, body := body.getD (Value.str ""), error := "" }

/-- `get_error_response` from `src/prepare.rs`. -/
def get_error_response (error : String) : HttpResponse :=
  { code := 500, body := Value.str "", error := error }

/-- `Stat::get_system_info_error`: an error response whose body is replaced
by the partially assembled snapshot. -/
def Stat.get_system_info_error (system_info : SystemInfo) (err : String) :
    HttpResponse :=
  let res := get_error_response err
  { res with body := Value.obj system_info }

/-- `Stat::get_system_info` from `src/stat/mod.rs`.  The external
collaborators are parameters: `os` and `disk_list` are the (infallible)
`sysinfo` lookups, `cpu_res` and `mem_res` the fallible `procfs` lookups
(`get_cup_info`, `get_mem_info`), and `home_dir` the result of
home-directory resolution.  The control flow mirrors the source: populate
`os` and `disk_list`, short-circuit to an error response (keeping the
partial snapshot as body) if the CPU lookup fails, record the CPU info with
the passed-in usage, short-circuit likewise if the memory lookup fails,
else fill in memory and home directory and return a success response. -/
def Stat.get_system_info (cpu_usage : ℚ) (os : Os) (disk_list : List OsDisk)
    (cpu_res : Except String CpuInfo) (mem_res : Except String MemInfo)
    (home_dir : String) : HttpResponse :=
  let system_info := SystemInfo.default
  let system_info := { system_info with os := os }
  let system_info := { system_info with disk_list := disk_list }
  match cpu_res with
  | Except.error err => Stat.get_system_info_error system_info err
  | Except.ok cpu_info =>
    let system_info := { system_info with cpu_info := cpu_info }
    let system_info :=
      { system_info with cpu_info := { system_info.cpu_info with usage := cpu_usage } }
    match mem_res with
    | Except.error err => Stat.get_system_info_error system_info err
    | Except.ok mem_info =>
      let system_info := { system_info with mem_info := mem_info }
      let system_info := { system_info with home_dir := home_dir }
      get_success_response (some (Value.obj system_info))

/-- Captured result of running a shell command (`std::process::Output`):
the exit status and the (lossily decoded) standard output text. -/
structure CmdOutput where
  success : Bool
  stdout : List Char
deriving DecidableEq, Repr

/-- `Stat::get_command_output`: the command's stdout text if it ran and
exited successfully, the empty string if it exited with failure status
(`none` models `Command::output` returning `Err`). -/
def Stat.get_command_output (output : Option CmdOutput) : List Char :=
  match output with
  | some o => if o.success then o.stdout else []
  | none => []

/-- `Stat::get_current_login_username`: the raw output of `echo $USER`
(empty if the command produced nothing). -/
def Stat.get_current_login_username (userOut : Option CmdOutput) : List Char :=
  let content := Stat.get_command_output userOut
  if content = [] then [] else content

/-- `Stat::get_user_home_dir`, parameterized by the outputs of its two shell
commands (`echo $USER`, then `getent passwd <user>`): empty string on an
empty username, on command failure, and on fewer than six colon-delimited
fields; otherwise the sixth field (index 5) of the trimmed output. -/
def Stat.get_user_home_dir (userOut getentOut : Option CmdOutput) : List Char :=
  let username := Stat.get_current_login_username userOut
  if username = [] then []
  else
    let content := Stat.get_command_output getentOut
    if content ≠ [] then
      let fields := splitChar ':' (trimList content)
      if 6 ≤ fields.length then fields.getD 5 []
      else []
    else []

/-- One iteration of the sampling loop in `src/main.rs` (`main`), after the
1-second sleep: `current_stat` is the freshly read counter snapshot,
`prev_stat` the stored one.  The loop computes
`calculate_cpu_usage(current_stat, prev_stat)`, assembles one snapshot
response embedding that usage, prints exactly that one serialized response,
and stores `current_stat` as the new previous snapshot.  The first
component collects the responses emitted during the tick. -/
def mainTick (prev_stat current_stat : CpuUsageInfo) (os : Os)
    (disk_list : List OsDisk) (cpu_res : Except String CpuInfo)
    (mem_res : Except String MemInfo) (home_dir : String) :
    List HttpResponse × CpuUsageInfo :=
  let cpu_usage := Stat.calculate_cpu_usage current_stat prev_stat
  let result := Stat.get_system_info cpu_usage os disk_list cpu_res mem_res home_dir
  ([result], current_stat)

theorem calculate_eval (current prev : CpuUsageInfo) (ct pt l u t : ℕ)
    (h1 : current.get_total_time = ct) (h2 : prev.get_total_time = pt)
    (h3 : wsub current.idle prev.idle = l) (h5 : wsub ct pt = t)
    (h4 : wsub t l = u) :
    Stat.calculate_cpu_usage current prev
      = if 0 < u ∧ 0 < t then round2 ((u : ℚ) / (t : ℚ) * 100) else 0 := by
  simp only [Stat.calculate_cpu_usage, h1, h2, h3, h4, h5]

theorem round2_eval_down (q : ℚ) (n : ℤ) (h1 : (n : ℚ) ≤ q * 100)
    (h2 : q * 100 < (n : ℚ) + 1/2) : round2 q = (n : ℚ) / 100 := by
  unfold round2
  rw [roundHalfEvenInt_eq_of_lt_half h1 h2]

theorem round2_eval_up (q : ℚ) (n : ℤ) (h1 : (n : ℚ) + 1/2 < q * 100)
    (h2 : q * 100 < (n : ℚ) + 1) : round2 q = ((n : ℚ) + 1) / 100 := by
  unfold round2
  rw [roundHalfEvenInt_eq_of_gt_half h1 h2]
  push_cast
  ring

/-- Normal form of the estimator on a pair with no counter rollback: with
both total sums inside `u64` range, a non-decreasing total and a
non-decreasing idle counter, the wrapped deltas are the true deltas. -/
theorem calculate_of_monotone (current prev : CpuUsageInfo)
    (hc : sumFields current < U64) (hpc : sumFields prev ≤ sumFields current)
    (hidle : prev.idle ≤ current.idle) :
    Stat.calculate_cpu_usage current prev
      = (if 0 < wsub (sumFields current - sumFields prev) (current.idle - prev.idle)
            ∧ 0 < sumFields current - sumFields prev
        then round2
          ((wsub (sumFields current - sumFields prev) (current.idle - prev.idle) : ℚ)
            / ((sumFields current - sumFields prev : ℕ) : ℚ) * 100)
        else 0) := by
  have hp : sumFields prev < U64 := lt_of_le_of_lt hpc hc
  have hci : current.idle < U64 := lt_of_le_of_lt (idle_le_sumFields current) hc
  have e1 : current.get_total_time = sumFields current := by
    rw [get_total_time_eq, Nat.mod_eq_of_lt hc]
  have e2 : prev.get_total_time = sumFields prev := by
    rw [get_total_time_eq, Nat.mod_eq_of_lt hp]
  have e3 : wsub current.idle prev.idle = current.idle - prev.idle :=
    wsub_exact hidle hci
  have e5 : wsub (sumFields current) (sumFields prev)
      = sumFields current - sumFields prev := wsub_exact hpc hc
  simp only [Stat.calculate_cpu_usage, e1, e2, e3, e5]

theorem calc_pair_forward :
    Stat.calculate_cpu_usage ⟨1100, 200, 300, 5050, 50, 10, 5, 0, 0, 0⟩
        ⟨1000, 200, 300, 5000, 50, 10, 5, 0, 0, 0⟩ = 6667 / 100 := by
  rw [calculate_eval _ _ 6715 6565 50 100 150 (by decide) (by decide) (by decide)
    (by decide) (by decide)]
  rw [if_pos (by norm_num)]
  rw [round2_eval_up _ 6666 (by push_cast; norm_num) (by push_cast; norm_num)]
  norm_num

theorem calc_pair_swapped :
    Stat.calculate_cpu_usage ⟨1000, 200, 300, 5000, 50, 10, 5, 0, 0, 0⟩
        ⟨1100, 200, 300, 5050, 50, 10, 5, 0, 0, 0⟩ = 100 := by
  rw [calculate_eval _ _ 6565 6715 18446744073709551566 18446744073709551516
    18446744073709551466 (by decide) (by decide) (by decide) (by decide) (by decide)]
  rw [if_pos (by norm_num)]
  rw [round2_eval_down _ 10000 (by push_cast; norm_num) (by push_cast; norm_num)]
  norm_num

/-- C1 counterexample: for `current` all zero and `previous` with
`user = 100` (a counter reset, so `total_delta = -100 ≤ 0`), the estimator
does **not** return `0.0`: the wrapping `u64` subtractions produce huge
positive deltas, the positivity guard passes, and the result is `100.0`. -/
theorem c1_counterexample :
    sumFields ⟨0, 0, 0, 0, 0, 0, 0, 0, 0, 0⟩
        < sumFields ⟨100, 0, 0, 0, 0, 0, 0, 0, 0, 0⟩
      ∧ Stat.calculate_cpu_usage ⟨0, 0, 0, 0, 0, 0, 0, 0, 0, 0⟩
          ⟨100, 0, 0, 0, 0, 0, 0, 0, 0, 0⟩ = 100
      ∧ Stat.calculate_cpu_usage ⟨0, 0, 0, 0, 0, 0, 0, 0, 0, 0⟩
          ⟨100, 0, 0, 0, 0, 0, 0, 0, 0, 0⟩ ≠ 0 := by
  have h : Stat.calculate_cpu_usage ⟨0, 0, 0, 0, 0, 0, 0, 0, 0, 0⟩
      ⟨100, 0, 0, 0, 0, 0, 0, 0, 0, 0⟩ = 100 := by
    rw [calculate_eval _ _ 0 100 0 18446744073709551516 18446744073709551516
      (by decide) (by decide) (by decide) (by decide) (by decide)]
    rw [if_pos (by norm_num)]
    rw [round2_eval_down _ 10000 (by push_cast; norm_num) (by push_cast; norm_num)]
    norm_num
  exact ⟨by decide, h, by rw [h]; norm_num⟩

/-- C1 (amended): the degenerate-input fallback to `0.0` holds exactly when
the wrapped deltas vanish: for any pair whose counters did not roll back
(both total sums in `u64` range, previous total ≤ current total, previous
idle ≤ current idle), if `total_delta = 0` or `used_delta = 0` then
`calculate_cpu_usage` returns exactly `0.0`.  (When a counter genuinely
decreases, the unsigned subtraction wraps instead of going negative, the
guard passes, and the result is not `0.0` — see the counterexample.) -/
theorem c1_zero_only_without_rollback (current prev : CpuUsageInfo)
    (hc : sumFields current < U64) (hpc : sumFields prev ≤ sumFields current)
    (hidle : prev.idle ≤ current.idle)
    (hz : sumFields current - sumFields prev = 0
        ∨ sumFields current - sumFields prev = current.idle - prev.idle) :
    Stat.calculate_cpu_usage current prev = 0 := by
  rw [calculate_of_monotone current prev hc hpc hidle]
  rcases hz with h | h
  · rw [h]
    simp
  · rw [h, wsub_self]
    simp

/-- Witness for C1 (amended) at a concrete pair with
`total_delta = used_delta + idle_delta = 2 = idle_delta` (`used_delta = 0`). -/
theorem c1_witness :
    sumFields ⟨4, 0, 0, 8, 0, 0, 0, 0, 0, 0⟩ < U64
      ∧ sumFields ⟨4, 0, 0, 6, 0, 0, 0, 0, 0, 0⟩
          ≤ sumFields ⟨4, 0, 0, 8, 0, 0, 0, 0, 0, 0⟩
      ∧ Stat.calculate_cpu_usage ⟨4, 0, 0, 8, 0, 0, 0, 0, 0, 0⟩
          ⟨4, 0, 0, 6, 0, 0, 0, 0, 0, 0⟩ = 0 :=
  ⟨by decide, by decide,
    c1_zero_only_without_rollback _ _ (by decide) (by decide) (by decide)
      (by decide)⟩

/-- C2 counterexample: for the pair `previous = (idle 10)` /
`current = (user 100, idle 5)` both of the claim's premises hold as signed
integers (`total_delta = 95 > 0`, `used_delta = 100 > 0`), yet because the
idle counter rolled back, the wrapped arithmetic yields `105.26`, outside
`[0, 100]`. -/
theorem c2_counterexample :
    ((sumFields ⟨100, 0, 0, 5, 0, 0, 0, 0, 0, 0⟩ : ℤ)
        - (sumFields ⟨0, 0, 0, 10, 0, 0, 0, 0, 0, 0⟩ : ℤ) = 95)
      ∧ ((sumFields ⟨100, 0, 0, 5, 0, 0, 0, 0, 0, 0⟩ : ℤ)
          - (sumFields ⟨0, 0, 0, 10, 0, 0, 0, 0, 0, 0⟩ : ℤ))
          - (((⟨100, 0, 0, 5, 0, 0, 0, 0, 0, 0⟩ : CpuUsageInfo).idle : ℤ)
              - ((⟨0, 0, 0, 10, 0, 0, 0, 0, 0, 0⟩ : CpuUsageInfo).idle : ℤ)) = 100
      ∧ Stat.calculate_cpu_usage ⟨100, 0, 0, 5, 0, 0, 0, 0, 0, 0⟩
          ⟨0, 0, 0, 10, 0, 0, 0, 0, 0, 0⟩ = 10526 / 100
      ∧ 100 < Stat.calculate_cpu_usage ⟨100, 0, 0, 5, 0, 0, 0, 0, 0, 0⟩
          ⟨0, 0, 0, 10, 0, 0, 0, 0, 0, 0⟩ := by
  have h : Stat.calculate_cpu_usage ⟨100, 0, 0, 5, 0, 0, 0, 0, 0, 0⟩
      ⟨0, 0, 0, 10, 0, 0, 0, 0, 0, 0⟩ = 10526 / 100 := by
    rw [calculate_eval _ _ 105 10 18446744073709551611 100 95
      (by decide) (by decide) (by decide) (by decide) (by decide)]
    rw [if_pos (by norm_num)]
    rw [round2_eval_down _ 10526 (by push_cast; norm_num) (by push_cast; norm_num)]
    norm_num
  exact ⟨by decide, by decide, h, by rw [h]; norm_num⟩

/-- C2 (amended): for every pair with positive total and used deltas whose
counters did not roll back (total sums in `u64` range, previous total ≤
current total, previous idle ≤ current idle), the estimator returns
exactly the final percentage `used_delta / total_delta * 100` rounded once
at two decimal digits (`round2`, ties to even as produced by the float
formatting, not away from zero), and that value lies in `[0, 100]` and is
an integer number of hundredths. -/
theorem c2_range_of_monotone_pair (current prev : CpuUsageInfo)
    (hc : sumFields current < U64) (hpc : sumFields prev ≤ sumFields current)
    (hidle : prev.idle ≤ current.idle)
    (hud : current.idle - prev.idle < sumFields current - sumFields prev) :
    Stat.calculate_cpu_usage current prev
        = round2 ((((sumFields current - sumFields prev)
              - (current.idle - prev.idle) : ℕ) : ℚ)
            / ((sumFields current - sumFields prev : ℕ) : ℚ) * 100)
      ∧ 0 ≤ Stat.calculate_cpu_usage current prev
      ∧ Stat.calculate_cpu_usage current prev ≤ 100
      ∧ ∃ n : ℤ, Stat.calculate_cpu_usage current prev = (n : ℚ) / 100 := by
  have htd : 0 < sumFields current - sumFields prev :=
    lt_of_le_of_lt (Nat.zero_le _) hud
  have htdU : sumFields current - sumFields prev < U64 :=
    lt_of_le_of_lt (Nat.sub_le _ _) hc
  have hw : wsub (sumFields current - sumFields prev) (current.idle - prev.idle)
      = (sumFields current - sumFields prev) - (current.idle - prev.idle) :=
    wsub_exact (le_of_lt hud) htdU
  have heq : Stat.calculate_cpu_usage current prev
      = round2 ((((sumFields current - sumFields prev)
            - (current.idle - prev.idle) : ℕ) : ℚ)
          / ((sumFields current - sumFields prev : ℕ) : ℚ) * 100) := by
    rw [calculate_of_monotone current prev hc hpc hidle, hw,
      if_pos ⟨by omega, htd⟩]
  have hq0 : (0 : ℚ) ≤ (((sumFields current - sumFields prev)
        - (current.idle - prev.idle) : ℕ) : ℚ)
      / ((sumFields current - sumFields prev : ℕ) : ℚ) * 100 := by positivity
  have hq100 : (((sumFields current - sumFields prev)
        - (current.idle - prev.idle) : ℕ) : ℚ)
      / ((sumFields current - sumFields prev : ℕ) : ℚ) * 100 ≤ 100 := by
    have h1 : (((sumFields current - sumFields prev)
          - (current.idle - prev.idle) : ℕ) : ℚ)
        ≤ ((sumFields current - sumFields prev : ℕ) : ℚ) := by
      exact_mod_cast Nat.sub_le _ _
    have h2 : (0 : ℚ) < ((sumFields current - sumFields prev : ℕ) : ℚ) := by
      exact_mod_cast htd
    have h3 : (((sumFields current - sumFields prev)
          - (current.idle - prev.idle) : ℕ) : ℚ)
        / ((sumFields current - sumFields prev : ℕ) : ℚ) ≤ 1 :=
      (div_le_one h2).mpr h1
    have h4 := mul_le_mul_of_nonneg_right h3 (by norm_num : (0 : ℚ) ≤ 100)
    simpa using h4
  refine ⟨heq, ?_, ?_, ?_⟩
  · rw [heq]
    exact round2_nonneg hq0
  · rw [heq]
    exact round2_le_100 hq100
  · exact ⟨_, by rw [heq]; rfl⟩

/-- Witness for C2 (amended) at `previous = 0`, `current = (user 1, idle 3)`:
`total_delta = 4`, `used_delta = 1`, result `round2 (1/4*100) = 25.0`. -/
theorem c2_witness :
    sumFields ⟨1, 0, 0, 3, 0, 0, 0, 0, 0, 0⟩ < U64
      ∧ ((⟨1, 0, 0, 3, 0, 0, 0, 0, 0, 0⟩ : CpuUsageInfo).idle
            - (⟨0, 0, 0, 0, 0, 0, 0, 0, 0, 0⟩ : CpuUsageInfo).idle
          < sumFields ⟨1, 0, 0, 3, 0, 0, 0, 0, 0, 0⟩
            - sumFields ⟨0, 0, 0, 0, 0, 0, 0, 0, 0, 0⟩)
      ∧ (0 ≤ Stat.calculate_cpu_usage ⟨1, 0, 0, 3, 0, 0, 0, 0, 0, 0⟩
            ⟨0, 0, 0, 0, 0, 0, 0, 0, 0, 0⟩
          ∧ Stat.calculate_cpu_usage ⟨1, 0, 0, 3, 0, 0, 0, 0, 0, 0⟩
              ⟨0, 0, 0, 0, 0, 0, 0, 0, 0, 0⟩ ≤ 100) :=
  ⟨by decide, by decide,
    (c2_range_of_monotone_pair _ _ (by decide) (by decide) (by decide)
        (by decide)).2.1,
    (c2_range_of_monotone_pair _ _ (by decide) (by decide) (by decide)
        (by decide)).2.2.1⟩

/-- C3: on the concrete pair from the spec (`previous` with user 1000,
nice 200, system 300, idle 5000, iowait 50, irq 10, softirq 5 and zero
steal/guest/guest_nice; `current` with user 1100 and idle 5050, the rest
unchanged) the estimator computes `total_prev = 6565`, `total_cur = 6715`,
`total_delta = 150`, `idle_delta = 50`, `used_delta = 100` and returns
`66.67`. -/
theorem c3_concrete_estimate :
    (⟨1000, 200, 300, 5000, 50, 10, 5, 0, 0, 0⟩ : CpuUsageInfo).get_total_time = 6565
      ∧ (⟨1100, 200, 300, 5050, 50, 10, 5, 0, 0, 0⟩ : CpuUsageInfo).get_total_time = 6715
      ∧ wsub (⟨1100, 200, 300, 5050, 50, 10, 5, 0, 0, 0⟩ : CpuUsageInfo).get_total_time
          (⟨1000, 200, 300, 5000, 50, 10, 5, 0, 0, 0⟩ : CpuUsageInfo).get_total_time = 150
      ∧ wsub (⟨1100, 200, 300, 5050, 50, 10, 5, 0, 0, 0⟩ : CpuUsageInfo).idle
          (⟨1000, 200, 300, 5000, 50, 10, 5, 0, 0, 0⟩ : CpuUsageInfo).idle = 50
      ∧ wsub 150 50 = 100
      ∧ Stat.calculate_cpu_usage ⟨1100, 200, 300, 5050, 50, 10, 5, 0, 0, 0⟩
          ⟨1000, 200, 300, 5000, 50, 10, 5, 0, 0, 0⟩ = 6667 / 100 :=
  ⟨by decide, by decide, by decide, by decide, by decide, calc_pair_forward⟩

/-- C6: on two identical counter snapshots the estimator returns exactly
`0.0` — `total_delta` is `0`, the positivity guard fails, and the fallback
branch is taken; no division is attempted and no error is possible.  This
holds for every snapshot `X`, with no validity restriction. -/
theorem c6_identical_snapshots_zero (X : CpuUsageInfo) :
    Stat.calculate_cpu_usage X X = 0 := by
  simp only [Stat.calculate_cpu_usage, wsub_self]
  simp

/-- C10: the estimator never returns a negative value: for every pair of
counter snapshots the result is either the `0.0` of the guard's fallback
branch or a rounded quotient of two nonnegative (wrapped) counters. -/
theorem c10_nonnegative (current prev : CpuUsageInfo) :
    0 ≤ Stat.calculate_cpu_usage current prev
      ∧ (Stat.calculate_cpu_usage current prev = 0
          ∨ 0 < Stat.calculate_cpu_usage current prev) := by
  have h0 : 0 ≤ Stat.calculate_cpu_usage current prev := by
    simp only [Stat.calculate_cpu_usage]
    split_ifs with h
    · exact round2_nonneg (by positivity)
    · exact le_refl 0
  refine ⟨h0, ?_⟩
  rcases eq_or_lt_of_le h0 with h | h
  · exact Or.inl h.symm
  · exact Or.inr h

/-- C4 counterexample: on a statistics text containing only per-core
`cpu0`/`cpu1` lines (no aggregate `cpu ` line), the counter reader does
**not** fail with a structured `ParseError`: it panics (`unwrap` on the
`find` result).  Its Rust error channel is `io::Error` and has no
parse-error variant, so no `ParseError` value can ever be produced. -/
theorem c4_counterexample :
    Stat.read_proc_stat
        ("cpu0 100 200 300 400 500 600 700 800 900 1000\ncpu1 1 2 3 4 5 6 7 8 9 10\n".data)
      = ReadOutcome.panic := by
  decide

theorem option_bind_const_none {α β : Type} (x : Option α) :
    x.bind (fun _ => (none : Option β)) = none := by
  cases x <;> rfl

set_option maxHeartbeats 1000000 in
/-- C4 (amended): the counter reader panics — rather than succeeding,
defaulting, or returning a structured error — on every statistics text with
no line starting with `"cpu "`, on every text whose selected aggregate line
has fewer than 10 fields after the label (out-of-bounds index on the
missing field), and on every text where some selected field at positions
1..10 fails `u64` parsing (`unwrap` on `parse`). -/
theorem c4_malformed_input_panics :
    (∀ contents : List Char,
        (∀ l ∈ rustLines contents, listStartsWith l ("cpu ".data) = false) →
          Stat.read_proc_stat contents = ReadOutcome.panic)
      ∧ (∀ contents cpu_line : List Char,
          (rustLines contents).find?
              (fun line => listStartsWith line ("cpu ".data)) = some cpu_line →
          (splitWhitespaceL cpu_line).length ≤ 10 →
          Stat.read_proc_stat contents = ReadOutcome.panic)
      ∧ (∀ (contents cpu_line f : List Char) (i : ℕ),
          (rustLines contents).find?
              (fun line => listStartsWith line ("cpu ".data)) = some cpu_line →
          1 ≤ i → i ≤ 10 →
          (splitWhitespaceL cpu_line)[i]? = some f →
          parseU64 f = none →
          Stat.read_proc_stat contents = ReadOutcome.panic) := by
  refine ⟨?_, ?_, ?_⟩
  · intro contents h
    have hnone : (rustLines contents).find?
        (fun line => listStartsWith line ("cpu ".data)) = none := by
      apply List.find?_eq_none.mpr
      intro x hx
      simp [h x hx]
    simp only [Stat.read_proc_stat, hnone]
  · intro contents cpu_line hfind hlen
    have h10 : (splitWhitespaceL cpu_line)[10]? = none :=
      List.getElem?_eq_none hlen
    simp [Stat.read_proc_stat, hfind, h10, option_bind_const_none]
  · intro contents cpu_line f i hfind h1 h10 hget hpf
    interval_cases i <;>
      simp [Stat.read_proc_stat, hfind, hget, hpf, option_bind_const_none]

/-- Witness for C4 (amended), exercising all three conjuncts: a text whose
only line is `cpu0 1 2` (no aggregate line), one whose aggregate line has
only 5 fields after the label, and one whose second field `abc` fails
parsing; the reader panics on each. -/
theorem c4_witness :
    Stat.read_proc_stat ("cpu0 1 2\n".data) = ReadOutcome.panic
      ∧ Stat.read_proc_stat ("cpu 1 2 3 4 5\n".data) = ReadOutcome.panic
      ∧ Stat.read_proc_stat ("cpu 1000 abc 300 5000 50 10 5 0 0 0\n".data)
          = ReadOutcome.panic :=
  ⟨c4_malformed_input_panics.1 _ (by decide),
    c4_malformed_input_panics.2.1 _ ("cpu 1 2 3 4 5".data) (by decide) (by decide),
    c4_malformed_input_panics.2.2 _ ("cpu 1000 abc 300 5000 50 10 5 0 0 0".data)
      ("abc".data) 2 (by decide) (by decide) (by decide) (by decide) (by decide)⟩

/-- C5: on a statistics text containing the aggregate line
`cpu  1000 200 300 5000 50 10 5 0 0 0` along with a header line and
per-core `cpu0`/`cpu1` lines, the reader selects the aggregate line (the
first whose first whitespace-delimited token is `cpu`), discards the label,
and maps the next ten tokens positionally to user 1000, nice 200,
system 300, idle 5000, iowait 50, irq 10, softirq 5, steal 0, guest 0,
guest_nice 0. -/
theorem c5_concrete_parse :
    Stat.read_proc_stat
        ("btime 1690000000\ncpu  1000 200 300 5000 50 10 5 0 0 0\ncpu0 500 100 150 2500 25 5 2 0 0 0\ncpu1 500 100 150 2500 25 5 3 0 0 0\nintr 12345\nctxt 67890\n".data)
      = ReadOutcome.ok ⟨1000, 200, 300, 5000, 50, 10, 5, 0, 0, 0⟩ := by
  decide

/-- C7: when the memory lookup fails (and likewise when the core-count
lookup fails) with a nonempty error message, `get_system_info` returns a
response with `code = 500`, that nonempty error message, and a body that is
the serialized partial snapshot — which still carries the already-populated
OS-identity and disk fields and is never the empty-string body. -/
theorem c7_partial_body_on_lookup_failure (cpu_usage : ℚ) (os : Os)
    (disk_list : List OsDisk) (cpu_info : CpuInfo)
    (mem_res : Except String MemInfo) (home_dir : String) (err : String)
    (herr : err ≠ "") :
    ((Stat.get_system_info cpu_usage os disk_list (Except.ok cpu_info)
          (Except.error err) home_dir).code = 500
      ∧ (Stat.get_system_info cpu_usage os disk_list (Except.ok cpu_info)
          (Except.error err) home_dir).error = err
      ∧ (Stat.get_system_info cpu_usage os disk_list (Except.ok cpu_info)
          (Except.error err) home_dir).error ≠ ""
      ∧ (∃ info : SystemInfo,
          (Stat.get_system_info cpu_usage os disk_list (Except.ok cpu_info)
            (Except.error err) home_dir).body = Value.obj info
          ∧ info.os = os ∧ info.disk_list = disk_list)
      ∧ ∀ s : String,
          (Stat.get_system_info cpu_usage os disk_list (Except.ok cpu_info)
            (Except.error err) home_dir).body ≠ Value.str s)
    ∧ ((Stat.get_system_info cpu_usage os disk_list (Except.error err)
          mem_res home_dir).code = 500
      ∧ (Stat.get_system_info cpu_usage os disk_list (Except.error err)
          mem_res home_dir).error = err
      ∧ (Stat.get_system_info cpu_usage os disk_list (Except.error err)
          mem_res home_dir).error ≠ ""
      ∧ (∃ info : SystemInfo,
          (Stat.get_system_info cpu_usage os disk_list (Except.error err)
            mem_res home_dir).body = Value.obj info
          ∧ info.os = os ∧ info.disk_list = disk_list)
      ∧ ∀ s : String,
          (Stat.get_system_info cpu_usage os disk_list (Except.error err)
            mem_res home_dir).body ≠ Value.str s) := by
  refine ⟨⟨rfl, rfl, herr, ⟨_, rfl, rfl, rfl⟩, ?_⟩,
    ⟨rfl, rfl, herr, ⟨_, rfl, rfl, rfl⟩, ?_⟩⟩
  · intro s
    simp [Stat.get_system_info, Stat.get_system_info_error, get_error_response]
  · intro s
    simp [Stat.get_system_info, Stat.get_system_info_error, get_error_response]

/-- Witness for C7 at concrete collaborator data and the error message
`"mem lookup failed"`. -/
theorem c7_witness :
    ("mem lookup failed" : String) ≠ ""
      ∧ (Stat.get_system_info 25 ⟨"linux", "6.1", "ubuntu 22", "host1", 8, 64, 32, 8, 1⟩
          [⟨"SSD", "nvme0", 1000, 500, "/", false⟩] (Except.ok ⟨4, 8, 0⟩)
          (Except.error "mem lookup failed") "/root").code = 500
      ∧ (∃ info : SystemInfo,
          (Stat.get_system_info 25 ⟨"linux", "6.1", "ubuntu 22", "host1", 8, 64, 32, 8, 1⟩
            [⟨"SSD", "nvme0", 1000, 500, "/", false⟩] (Except.ok ⟨4, 8, 0⟩)
            (Except.error "mem lookup failed") "/root").body = Value.obj info
          ∧ info.os = ⟨"linux", "6.1", "ubuntu 22", "host1", 8, 64, 32, 8, 1⟩
          ∧ info.disk_list = [⟨"SSD", "nvme0", 1000, 500, "/", false⟩]) :=
  ⟨by decide,
    (c7_partial_body_on_lookup_failure 25 _ _ _ (Except.ok ⟨64, 32⟩) "/root" _
      (by decide)).1.1,
    (c7_partial_body_on_lookup_failure 25 _ _ _ (Except.ok ⟨64, 32⟩) "/root" _
      (by decide)).1.2.2.2.1⟩

/-- C8: home-directory resolution is total and never fails the assembly:
it returns the empty string when the obtained login username is empty (the
`echo` command produced no output), when the `getent` lookup fails to
execute or exits with non-success status, and when the lookup's
colon-delimited output has fewer than 6 fields; otherwise it returns the
6th colon-delimited field (index 5) of the trimmed output. -/
theorem c8_home_dir_resolution :
    (∀ (u g : Option CmdOutput), Stat.get_command_output u = [] →
        Stat.get_user_home_dir u g = [])
      ∧ (∀ (u : Option CmdOutput) (o : CmdOutput), o.success = false →
          Stat.get_user_home_dir u (some o) = [])
      ∧ (∀ u : Option CmdOutput, Stat.get_user_home_dir u none = [])
      ∧ (∀ (u : Option CmdOutput) (o : CmdOutput),
          (splitChar ':' (trimList o.stdout)).length < 6 →
          Stat.get_user_home_dir u (some o) = [])
      ∧ (∀ (u : Option CmdOutput) (o : CmdOutput),
          Stat.get_command_output u ≠ [] → o.success = true →
          o.stdout ≠ [] → 6 ≤ (splitChar ':' (trimList o.stdout)).length →
          Stat.get_user_home_dir u (some o)
            = (splitChar ':' (trimList o.stdout)).getD 5 []) := by
  refine ⟨?_, ?_, ?_, ?_, ?_⟩
  · intro u g h
    simp [Stat.get_user_home_dir, Stat.get_current_login_username, h]
  · intro u o h
    by_cases hu : Stat.get_current_login_username u = [] <;>
      simp [Stat.get_user_home_dir, Stat.get_command_output, h, hu]
  · intro u
    by_cases hu : Stat.get_current_login_username u = [] <;>
      simp [Stat.get_user_home_dir, Stat.get_command_output, hu]
  · intro u o h
    by_cases hu : Stat.get_current_login_username u = []
    · simp [Stat.get_user_home_dir, hu]
    · by_cases hs : o.success = true
      · simp only [Stat.get_user_home_dir, Stat.get_command_output, hs,
          if_true, if_neg hu]
        split_ifs with h1 h2
        · exact absurd h2 (by omega)
        · rfl
        · rfl
      · simp [Stat.get_user_home_dir, Stat.get_command_output, hu, hs]
  · intro u o hu hsucc hout hlen
    have hu' : Stat.get_current_login_username u ≠ [] := by
      simp only [Stat.get_current_login_username]
      split_ifs with h0
      · exact absurd h0 hu
      · exact hu
    simp only [Stat.get_user_home_dir, Stat.get_command_output, hsucc,
      if_true, if_neg hu']
    rw [if_pos (by simpa using hout), if_pos hlen]

/-- Witness for C8: with username output `alice` and a 7-field passwd
record for alice, resolution returns the 6th field `/home/alice`. -/
theorem c8_witness :
    Stat.get_user_home_dir (some ⟨true, "alice\n".data⟩)
        (some ⟨true, "alice:x:1000:1000:Alice:/home/alice:/bin/bash\n".data⟩)
      = "/home/alice".data := by
  rw [c8_home_dir_resolution.2.2.2.2 (some ⟨true, "alice\n".data⟩)
    ⟨true, "alice:x:1000:1000:Alice:/home/alice:/bin/bash\n".data⟩
    (by decide) (by decide) (by decide) (by decide)]
  decide

/-- C9: one tick of the sampling loop computes the usage as
`calculate_cpu_usage(current, stored previous)` — current as minuend,
previous as subtrahend, an order that matters, as the concrete asymmetric
pair in the last conjunct shows — emits exactly one snapshot response whose
body embeds that usage value, and then stores the current counters as the
new previous counters. -/
theorem c9_tick_order_and_state (prev_stat current_stat : CpuUsageInfo)
    (os : Os) (disk_list : List OsDisk) (cpu_info : CpuInfo)
    (mem_info : MemInfo) (home_dir : String) :
    ((mainTick prev_stat current_stat os disk_list (Except.ok cpu_info)
        (Except.ok mem_info) home_dir).2 = current_stat)
      ∧ (∃ r : HttpResponse,
          (mainTick prev_stat current_stat os disk_list (Except.ok cpu_info)
            (Except.ok mem_info) home_dir).1 = [r]
          ∧ r.code = 200
          ∧ ∃ info : SystemInfo, r.body = Value.obj info
              ∧ info.cpu_info.usage
                  = Stat.calculate_cpu_usage current_stat prev_stat)
      ∧ Stat.calculate_cpu_usage ⟨1100, 200, 300, 5050, 50, 10, 5, 0, 0, 0⟩
            ⟨1000, 200, 300, 5000, 50, 10, 5, 0, 0, 0⟩
          ≠ Stat.calculate_cpu_usage ⟨1000, 200, 300, 5000, 50, 10, 5, 0, 0, 0⟩
            ⟨1100, 200, 300, 5050, 50, 10, 5, 0, 0, 0⟩ := by
  refine ⟨rfl, ⟨_, rfl, rfl, ⟨_, rfl, rfl⟩⟩, ?_⟩
  rw [calc_pair_forward, calc_pair_swapped]
  norm_num
